import Mathlib

/-!
# padbot_mapper_go: the Padbot device driver

A shallow embedding of `driver/padbot_driver.go` (and of the driver value that
`cmd/main.go` hands to the mapper SDK), with the properties of its read, write
and polling operations.

Conventions of the embedding

* A Go `string` is a Lean `String`; `len(s)` is the byte length `s.utf8ByteSize`.
* A Go `[]byte` argument is a `List UInt8`.
* `int64` is `Int`: the driver never does arithmetic on `BatteryPercentage`, it
  only stores it and prints it.
* `encoding/json.Unmarshal`, `net/http.Get` and `io.ReadAll` are library code.
  They are parameters of the operations: a `Decoder` gives the result of
  `json.Unmarshal` at each of the four target types, and a `Network` gives the
  result of `http.Get` for a URL.
* Every operation returns the driver value it leaves behind together with the
  HTTP requests it issued, in order.  `klog` output is not modelled.
* The two stop channels are represented only by whether `make` has run.
-/

namespace Padbot

/-! ## Data model -/

/-- Go `[]byte`. -/
abbrev Bytes := List UInt8

/-- Go builtin `len` on a string: the number of bytes. -/
def len (s : String) : Nat := s.utf8ByteSize

/-- The struct `PadbotDriverStatus`. -/
structure PadbotDriverStatus where
  BatteryPercentage : Int
  BatteryStatus : String
  ActionStatus : String
  NavigationStatus : String
  RobotLocation : String
deriving DecidableEq, Repr

/-- The struct `PadbotDriver`; a channel field is `true` once it has been made. -/
structure PadbotDriver where
  Status : PadbotDriverStatus
  Healthy : Bool
  BaseURL : String
  stopUpdateStatusChan : Bool
  stopUpdateHealthChan : Bool
deriving DecidableEq, Repr

/-- The inner struct of `PadbotProtocolCommonConfig` and of `PadbotProtocolConfig`. -/
structure BaseURLData where
  PadbotBaseURL : String
deriving DecidableEq, Repr

/-- The inner struct of `PadBotProtocolVisitorConfig`. -/
structure VisitorData where
  PropertyName : String
deriving DecidableEq, Repr

/-- The struct `PadbotProtocolCommonConfig`. -/
structure PadbotProtocolCommonConfig where
  CustomizedValues : BaseURLData
deriving DecidableEq, Repr

/-- The struct `PadbotProtocolConfig`. -/
structure PadbotProtocolConfig where
  ProtocolName : String
  ConfigData : BaseURLData
deriving DecidableEq, Repr

/-- The struct `PadBotProtocolVisitorConfig`. -/
structure PadBotProtocolVisitorConfig where
  ProtocolName : String
  ConfigData : VisitorData
deriving DecidableEq, Repr

/-- A Go `error` value; `none` is `nil`. -/
abbrev GoError := Option String

/-- The results of `json.Unmarshal` into a fresh value of each target type. -/
structure Decoder where
  status : Bytes → Except String PadbotDriverStatus
  common : Bytes → Except String PadbotProtocolCommonConfig
  visitor : Bytes → Except String PadBotProtocolVisitorConfig
  protocol : Bytes → Except String PadbotProtocolConfig

/-- The `http.Response` of a call: its status code, and what `io.ReadAll` gives for its body
(`none` when reading the body fails). -/
structure Response where
  StatusCode : Int
  Body : Option Bytes
deriving DecidableEq, Repr

/-- The result of `http.Get` for a URL; `none` when the call returns an error. -/
abbrev Network := String → Option Response

/-- A call of `http.Get` or of `http.Post` made by the driver. -/
inductive Request where
  | get (url : String)
  | post (url : String) (contentType : String) (body : String)
deriving DecidableEq, Repr

/-- The dynamic value of the `data interface{}` argument of `WriteDeviceData`. -/
inductive Data where
  | string (s : String)
  | int (n : Int)
  | bool (b : Bool)
deriving DecidableEq, Repr

/-- Go `fmt.Sprint` of an `int64`: the decimal rendering, with a leading `-` for a
negative number. -/
def Sprint (n : Int) : String :=
  match n with
  | Int.ofNat m => Nat.repr m
  | Int.negSucc m => "-" ++ Nat.repr (m + 1)

/-! ## Operations of `driver/padbot_driver.go` -/

/-- What an operation leaves behind: the driver value and the HTTP requests issued. -/
structure Effect where
  driver : PadbotDriver
  requests : List Request
deriving DecidableEq, Repr

/-- Method `PadbotDriver.InitDevice`: decode the common config, store the base URL and make
the two stop channels.  The two goroutines it starts are `runPollers`. -/
def InitDevice (json : Decoder) (d : PadbotDriver) (protocolCommon : Bytes) :
    PadbotDriver × GoError :=
  match json.common protocolCommon with
  | .error e => (d, some e)
  | .ok protocolCommonConfig =>
    ({ d with
        BaseURL := protocolCommonConfig.CustomizedValues.PadbotBaseURL
        stopUpdateHealthChan := true
        stopUpdateStatusChan := true }, none)

/-- The values returned by `ReadDeviceData`, with its effect. -/
structure ReadResult where
  data : String
  err : GoError
  effect : Effect
deriving DecidableEq, Repr

/-- Method `PadbotDriver.ReadDeviceData`.  The named result `err` is never assigned, so it is
`nil` on every path, the decoding-failure path included. -/
def ReadDeviceData (json : Decoder) (d : PadbotDriver)
    (protocolCommon visitor protocol : Bytes) : ReadResult :=
  let err : GoError := none
  let res := ""
  match json.common protocolCommon, json.visitor visitor, json.protocol protocol with
  | .ok _, .ok visitorConfig, .ok _ =>
    let propertyName := visitorConfig.ConfigData.PropertyName
    let res :=
      if propertyName = "batteryPercentage" then Sprint d.Status.BatteryPercentage
      else if propertyName = "batteryStatus" then d.Status.BatteryStatus
      else if propertyName = "actionStatus" then d.Status.ActionStatus
      else if propertyName = "navigationStatus" then d.Status.NavigationStatus
      else if propertyName = "robotLocation" then d.Status.RobotLocation
      else res
    let res := if len res = 0 then "UNKNOWN" else res
    { data := res, err := none, effect := ⟨d, []⟩ }
  | _, _, _ => { data := res, err := err, effect := ⟨d, []⟩ }

/-- How a call ends: it returns, or it panics. -/
inductive Outcome (α : Type) where
  | returned (a : α)
  | panicked
deriving DecidableEq, Repr

/-- The value returned by `WriteDeviceData`, with its effect; the requests are those
of the goroutine it starts. -/
structure WriteResult where
  err : GoError
  effect : Effect
deriving DecidableEq, Repr

/-- The body built by `fmt.Sprintf` in `WriteDeviceData`: the format text with the
target pasted in place of the verb `%s`, byte for byte. -/
def postData (targetPoint : String) : String :=
  "\x7b\"targetPoint\": \"" ++ targetPoint ++ "\"\x7d"

/-- Method `PadbotDriver.WriteDeviceData`.  The named result `err` is never assigned.  The
type assertion `data.(string)` panics on a value that is not a string. -/
def WriteDeviceData (json : Decoder) (d : PadbotDriver) (data : Data)
    (protocolCommon visitor protocol : Bytes) : Outcome WriteResult :=
  let err : GoError := none
  match json.common protocolCommon, json.visitor visitor, json.protocol protocol with
  | .ok _, .ok visitorConfig, .ok _ =>
    let propertyName := visitorConfig.ConfigData.PropertyName
    if propertyName = "robotLocation" then
      let navigationURL := d.BaseURL ++ "/navigation"
      match data with
      | .string targetPoint =>
        if targetPoint = "" ∨ targetPoint = "UNKNOWN" then
          .returned { err := none, effect := ⟨d, []⟩ }
        else
          .returned
            { err := none
              effect := ⟨d, [Request.post navigationURL "application/json" (postData targetPoint)]⟩ }
      | _ => .panicked
    else
      .returned { err := none, effect := ⟨d, []⟩ }
  | _, _, _ => .returned { err := err, effect := ⟨d, []⟩ }

/-- Method `PadbotDriver.GetDeviceStatus`. -/
def GetDeviceStatus (d : PadbotDriver) (_protocolCommon _visitor _protocol : Bytes) : Bool :=
  d.Healthy

/-- Method `PadbotDriver.updateHealth`: one iteration of the health poller. -/
def updateHealth (net : Network) (d : PadbotDriver) : Effect :=
  if len d.BaseURL = 0 then ⟨d, []⟩
  else
    let healthCheckURL := d.BaseURL ++ "/health"
    match net healthCheckURL with
    | none => ⟨{ d with Healthy := false }, [Request.get healthCheckURL]⟩
    | some response =>
      if response.StatusCode ≠ 200 then
        ⟨{ d with Healthy := false }, [Request.get healthCheckURL]⟩
      else
        ⟨{ d with Healthy := true }, [Request.get healthCheckURL]⟩

/-- The record `finalStatus` as `updateStatus` first fills it. -/
def finalStatus₀ : PadbotDriverStatus :=
  { BatteryPercentage := -1
    BatteryStatus := "UNKNOWN"
    ActionStatus := "UNKNOWN"
    NavigationStatus := "UNKNOWN"
    RobotLocation := "UNKNOWN" }

/-- Method `PadbotDriver.updateStatus`: one iteration of the status poller.  The deferred
function stores `finalStatus` on every path after the base URL check. -/
def updateStatus (json : Decoder) (net : Network) (d : PadbotDriver) : Effect :=
  if len d.BaseURL = 0 then ⟨d, []⟩
  else
    let finalStatus := finalStatus₀
    let statusURL := d.BaseURL ++ "/status"
    let finalStatus :=
      match net statusURL with
      | none => finalStatus
      | some response =>
        if response.StatusCode ≠ 200 then finalStatus
        else
          match response.Body with
          | none => finalStatus
          | some resBody =>
            match json.status resBody with
            | .error _ => finalStatus
            | .ok status => status
    ⟨{ d with Status := finalStatus }, [Request.get statusURL]⟩

/-- One iteration of one of the two goroutines started by `InitDevice`, with the
network as it is during that iteration. -/
inductive Tick where
  | health (net : Network)
  | status (net : Network)

/-- Run one poller iteration. -/
def tick (json : Decoder) (d : PadbotDriver) : Tick → Effect
  | .health net => updateHealth net d
  | .status net => updateStatus json net d

/-- The two poller goroutines of `InitDevice`, as the sequence of their iterations. -/
def runPollers (json : Decoder) : List Tick → PadbotDriver → Effect
  | [], d => ⟨d, []⟩
  | t :: ts, d =>
    let e := tick json d t
    let e' := runPollers json ts e.driver
    ⟨e'.driver, e.requests ++ e'.requests⟩

/-- The driver value built in `cmd/main.go`: `&driver.PadbotDriver{}`. -/
def mainDriver : PadbotDriver :=
  { Status :=
      { BatteryPercentage := 0
        BatteryStatus := ""
        ActionStatus := ""
        NavigationStatus := ""
        RobotLocation := "" }
    Healthy := false
    BaseURL := ""
    stopUpdateStatusChan := false
    stopUpdateHealthChan := false }

/-! ## A sample decoder and sample documents -/

/-- The bytes of an ASCII text. -/
def ascii (s : String) : Bytes := s.data.map (fun c => UInt8.ofNat c.toNat)

/-- The document of an empty JSON object: an opening and a closing brace. -/
def emptyObject : Bytes := ascii "\x7b\x7d"

/-- A text that is not JSON: an opening brace alone. -/
def openBrace : Bytes := ascii "\x7b"

/-- A common config document giving a base URL. -/
def commonDoc : Bytes :=
  ascii "\x7b\"customizedValues\":\x7b\"padbotBaseURL\":\"http://padbot\"\x7d\x7d"

/-- The visitor document naming a property. -/
def visitorDoc (propertyName : String) : Bytes :=
  ascii ("\x7b\"configData\":\x7b\"propertyName\":\"" ++ propertyName ++ "\"\x7d\x7d")

/-- The property names of the sample visitor documents. -/
def sampleNames : List String :=
  ["batteryPercentage", "batteryStatus", "actionStatus", "navigationStatus",
   "robotLocation", "speed"]

/-- A status body with every field present. -/
def sampleStatusBody : Bytes :=
  ascii ("\x7b\"batteryPercentage\":87,\"batteryStatus\":\"CHARGING\"," ++
    "\"actionStatus\":\"IDLE\",\"navigationStatus\":\"ARRIVED\"," ++
    "\"robotLocation\":\"Room42\"\x7d")

/-- The record in `sampleStatusBody`. -/
def sampleStatus : PadbotDriverStatus :=
  { BatteryPercentage := 87
    BatteryStatus := "CHARGING"
    ActionStatus := "IDLE"
    NavigationStatus := "ARRIVED"
    RobotLocation := "Room42" }

/-- Decode by table: a listed document gives what `json.Unmarshal` gives for it, and
`openBrace`, which is not JSON, gives the error Go reports for it.  A document outside
the table is answered with an error as well; nothing below decodes one. -/
def sampleDecoder : Decoder where
  status := fun b =>
    if b = emptyObject then .ok ⟨0, "", "", "", ""⟩
    else if b = sampleStatusBody then .ok sampleStatus
    else if b = openBrace then .error "unexpected end of JSON input"
    else .error "not in the table"
  common := fun b =>
    if b = emptyObject then .ok ⟨⟨""⟩⟩
    else if b = commonDoc then
      .ok ⟨⟨"http://padbot"⟩⟩
    else if b = openBrace then .error "unexpected end of JSON input"
    else .error "not in the table"
  visitor := fun b =>
    if b = emptyObject then .ok ⟨"", ⟨""⟩⟩
    else
      match sampleNames.find? (fun n => b = visitorDoc n) with
      | some n => .ok ⟨"", ⟨n⟩⟩
      | none =>
        if b = openBrace then .error "unexpected end of JSON input"
        else .error "not in the table"
  protocol := fun b =>
    if b = emptyObject then .ok ⟨"", ⟨""⟩⟩
    else if b = openBrace then .error "unexpected end of JSON input"
    else .error "not in the table"

/-- A driver whose base URL is set and whose last status poll succeeded. -/
def sampleDriver : PadbotDriver :=
  { Status := sampleStatus
    Healthy := false
    BaseURL := "http://padbot"
    stopUpdateStatusChan := true
    stopUpdateHealthChan := true }

/-- A network on which every request gets the given answer. -/
def constNet (r : Option Response) : Network := fun _ => r

/-! ## Auxiliary facts -/

theorem utf8ByteSize_go_pos (c : Char) (cs : List Char) :
    0 < String.utf8ByteSize.go (c :: cs) := by
  have h := Char.utf8Size_pos c
  simp only [String.utf8ByteSize.go]
  omega

theorem len_eq_zero_iff (s : String) : len s = 0 ↔ s = "" := by
  cases s with
  | mk l =>
    cases l with
    | nil => exact ⟨fun _ => rfl, fun _ => rfl⟩
    | cons c cs =>
      constructor
      · intro h
        have hp := utf8ByteSize_go_pos c cs
        simp only [len, String.utf8ByteSize] at h
        omega
      · intro h
        exact absurd (congrArg String.data h) (by simp)

theorem toDigits_ne_nil (n : Nat) : Nat.toDigits 10 n ≠ [] := by
  intro h
  have hl := congrArg List.length h
  unfold Nat.toDigits at hl
  rw [Nat.toDigitsCore] at hl
  split at hl
  · simp at hl
  · rw [Nat.toDigitsCore_lens_eq] at hl
    simp at hl

theorem repr_ne_empty (n : Nat) : Nat.repr n ≠ "" := by
  intro h
  have hd := congrArg String.data h
  exact toDigits_ne_nil n (by simpa [Nat.repr, List.asString] using hd)

theorem Sprint_ne_empty (n : Int) : Sprint n ≠ "" := by
  cases n with
  | ofNat m => exact repr_ne_empty m
  | negSucc m =>
    intro h
    have hd := congrArg String.length h
    simp only [Sprint, String.length_append] at hd
    have h1 : "-".length = 1 := by decide
    have h0 : "".length = 0 := by decide
    omega

/-- Sample renderings of `Sprint`. -/
theorem Sprint_samples :
    Sprint (-1) = "-1" ∧ Sprint 0 = "0" ∧ Sprint 87 = "87" ∧ Sprint (-120) = "-120" := by
  decide

theorem len_Sprint (n : Int) : len (Sprint n) ≠ 0 :=
  fun h => Sprint_ne_empty n ((len_eq_zero_iff _).mp h)

/-- The last step of `ReadDeviceData`: an empty result becomes the text UNKNOWN. -/
theorem orUnknown_eq (s : String) :
    (if len s = 0 then "UNKNOWN" else s) = (if s = "" then "UNKNOWN" else s) := by
  by_cases h : s = ""
  · subst h; rfl
  · have h' : len s ≠ 0 := fun e => h ((len_eq_zero_iff s).mp e)
    simp [h, h']

theorem orUnknown_ne_empty (s : String) : (if len s = 0 then "UNKNOWN" else s) ≠ "" := by
  rw [orUnknown_eq]
  by_cases h : s = ""
  · simp [h]
  · simp [h]

/-- On decodable arguments `ReadDeviceData` is the switch followed by the substitution. -/
theorem ReadDeviceData_ok (json : Decoder) (d : PadbotDriver)
    (protocolCommon visitor protocol : Bytes)
    (c : PadbotProtocolCommonConfig) (v : PadBotProtocolVisitorConfig)
    (p : PadbotProtocolConfig)
    (h1 : json.common protocolCommon = .ok c) (h2 : json.visitor visitor = .ok v)
    (h3 : json.protocol protocol = .ok p) :
    ReadDeviceData json d protocolCommon visitor protocol =
      { data :=
          (if len
              (if v.ConfigData.PropertyName = "batteryPercentage" then Sprint d.Status.BatteryPercentage
               else if v.ConfigData.PropertyName = "batteryStatus" then d.Status.BatteryStatus
               else if v.ConfigData.PropertyName = "actionStatus" then d.Status.ActionStatus
               else if v.ConfigData.PropertyName = "navigationStatus" then d.Status.NavigationStatus
               else if v.ConfigData.PropertyName = "robotLocation" then d.Status.RobotLocation
               else "") = 0 then "UNKNOWN"
           else
              (if v.ConfigData.PropertyName = "batteryPercentage" then Sprint d.Status.BatteryPercentage
               else if v.ConfigData.PropertyName = "batteryStatus" then d.Status.BatteryStatus
               else if v.ConfigData.PropertyName = "actionStatus" then d.Status.ActionStatus
               else if v.ConfigData.PropertyName = "navigationStatus" then d.Status.NavigationStatus
               else if v.ConfigData.PropertyName = "robotLocation" then d.Status.RobotLocation
               else ""))
        err := none
        effect := ⟨d, []⟩ } := by
  simp only [ReadDeviceData, h1, h2, h3]

theorem len_ne_zero_of_ne_empty {s : String} (h : s ≠ "") : len s ≠ 0 :=
  fun e => h ((len_eq_zero_iff s).mp e)

/-- With a base URL, `updateStatus` stores the record picked from the probe. -/
theorem updateStatus_of_url (json : Decoder) (net : Network) (d : PadbotDriver)
    (h : d.BaseURL ≠ "") :
    updateStatus json net d =
      ⟨{ d with
          Status :=
            match net (d.BaseURL ++ "/status") with
            | none => finalStatus₀
            | some response =>
              if response.StatusCode ≠ 200 then finalStatus₀
              else
                match response.Body with
                | none => finalStatus₀
                | some resBody =>
                  match json.status resBody with
                  | .error _ => finalStatus₀
                  | .ok status => status },
        [Request.get (d.BaseURL ++ "/status")]⟩ := by
  simp only [updateStatus, if_neg (len_ne_zero_of_ne_empty h)]

theorem updateStatus_Healthy (json : Decoder) (net : Network) (d : PadbotDriver) :
    (updateStatus json net d).driver.Healthy = d.Healthy := by
  unfold updateStatus
  split <;> rfl

theorem updateHealth_Status (net : Network) (d : PadbotDriver) :
    (updateHealth net d).driver.Status = d.Status := by
  unfold updateHealth
  split
  · rfl
  · simp only
    split
    · rfl
    · split <;> rfl

theorem runPollers_status_Healthy (json : Decoder) (nets : List Network) (d : PadbotDriver) :
    (runPollers json (nets.map Tick.status) d).driver.Healthy = d.Healthy := by
  induction nets generalizing d with
  | nil => rfl
  | cons n ns ih =>
    simp only [List.map_cons, runPollers, tick]
    rw [ih, updateStatus_Healthy]

theorem tick_of_empty_url (json : Decoder) (d : PadbotDriver) (h : d.BaseURL = "")
    (t : Tick) : tick json d t = ⟨d, []⟩ := by
  have hl : len d.BaseURL = 0 := (len_eq_zero_iff _).mpr h
  cases t with
  | health net => simp only [tick, updateHealth, if_pos hl]
  | status net => simp only [tick, updateStatus, if_pos hl]

theorem runPollers_of_empty_url (json : Decoder) (ticks : List Tick) (d : PadbotDriver)
    (h : d.BaseURL = "") : runPollers json ticks d = ⟨d, []⟩ := by
  induction ticks with
  | nil => rfl
  | cons t ts ih =>
    simp only [runPollers, tick_of_empty_url json d h t, ih, List.append_nil]

/-- On decodable arguments and a string value `WriteDeviceData` returns. -/
theorem WriteDeviceData_ok (json : Decoder) (d : PadbotDriver) (value : String)
    (protocolCommon visitor protocol : Bytes)
    (c : PadbotProtocolCommonConfig) (v : PadBotProtocolVisitorConfig)
    (p : PadbotProtocolConfig)
    (h1 : json.common protocolCommon = .ok c) (h2 : json.visitor visitor = .ok v)
    (h3 : json.protocol protocol = .ok p) :
    WriteDeviceData json d (.string value) protocolCommon visitor protocol =
      .returned
        { err := none
          effect :=
            ⟨d,
              if v.ConfigData.PropertyName = "robotLocation" ∧ value ≠ "" ∧ value ≠ "UNKNOWN" then
                [Request.post (d.BaseURL ++ "/navigation") "application/json" (postData value)]
              else []⟩ } := by
  simp only [WriteDeviceData, h1, h2, h3]
  by_cases hn : v.ConfigData.PropertyName = "robotLocation"
  · by_cases he : value = ""
    · simp [hn, he]
    · by_cases hu : value = "UNKNOWN"
      · simp [hn, hu]
      · simp [hn, he, hu]
  · simp [hn]

/-! ## ReadDeviceData -/

/-- C1: on decodable config arguments `ReadDeviceData` returns a nil error and leaves
the driver as it was; for the property batteryPercentage the data is the decimal
rendering of `Status.BatteryPercentage`, and for batteryStatus, actionStatus,
navigationStatus and robotLocation it is the Status field of that name, with the text
UNKNOWN in place of an empty field. -/
theorem ReadDeviceData_returns_named_field (json : Decoder) (d : PadbotDriver)
    (protocolCommon visitor protocol : Bytes)
    (c : PadbotProtocolCommonConfig) (v : PadBotProtocolVisitorConfig)
    (p : PadbotProtocolConfig)
    (h1 : json.common protocolCommon = .ok c) (h2 : json.visitor visitor = .ok v)
    (h3 : json.protocol protocol = .ok p) :
    (ReadDeviceData json d protocolCommon visitor protocol).err = none ∧
    (ReadDeviceData json d protocolCommon visitor protocol).effect.driver = d ∧
    (v.ConfigData.PropertyName = "batteryPercentage" →
      (ReadDeviceData json d protocolCommon visitor protocol).data =
        Sprint d.Status.BatteryPercentage) ∧
    (v.ConfigData.PropertyName = "batteryStatus" →
      (ReadDeviceData json d protocolCommon visitor protocol).data =
        if d.Status.BatteryStatus = "" then "UNKNOWN" else d.Status.BatteryStatus) ∧
    (v.ConfigData.PropertyName = "actionStatus" →
      (ReadDeviceData json d protocolCommon visitor protocol).data =
        if d.Status.ActionStatus = "" then "UNKNOWN" else d.Status.ActionStatus) ∧
    (v.ConfigData.PropertyName = "navigationStatus" →
      (ReadDeviceData json d protocolCommon visitor protocol).data =
        if d.Status.NavigationStatus = "" then "UNKNOWN" else d.Status.NavigationStatus) ∧
    (v.ConfigData.PropertyName = "robotLocation" →
      (ReadDeviceData json d protocolCommon visitor protocol).data =
        if d.Status.RobotLocation = "" then "UNKNOWN" else d.Status.RobotLocation) := by
  rw [ReadDeviceData_ok json d protocolCommon visitor protocol c v p h1 h2 h3]
  refine ⟨rfl, rfl, ?_, ?_, ?_, ?_, ?_⟩
  · intro hn
    simp only [hn, if_true]
    rw [if_neg (len_Sprint _)]
  · intro hn
    simp only [hn]
    exact orUnknown_eq _
  · intro hn
    simp only [hn]
    exact orUnknown_eq _
  · intro hn
    simp only [hn]
    exact orUnknown_eq _
  · intro hn
    simp only [hn]
    exact orUnknown_eq _

/-- C1, at the sample driver: reading batteryStatus after a successful poll. -/
theorem ReadDeviceData_returns_named_field_witness :
    sampleDecoder.common emptyObject = .ok ⟨⟨""⟩⟩ ∧
    sampleDecoder.visitor (visitorDoc "batteryStatus") = .ok ⟨"", ⟨"batteryStatus"⟩⟩ ∧
    sampleDecoder.protocol emptyObject = .ok ⟨"", ⟨""⟩⟩ ∧
    (ReadDeviceData sampleDecoder sampleDriver emptyObject (visitorDoc "batteryStatus")
        emptyObject).data = "CHARGING" :=
  ⟨rfl, rfl, rfl,
    ((ReadDeviceData_returns_named_field sampleDecoder sampleDriver emptyObject
        (visitorDoc "batteryStatus") emptyObject ⟨⟨""⟩⟩ ⟨"", ⟨"batteryStatus"⟩⟩ ⟨"", ⟨""⟩⟩
        rfl rfl rfl).2.2.2.1 rfl).trans (by decide)⟩

/-- C2, as stated, fails: when the visitor argument is not JSON, `ReadDeviceData`
returns the empty string, and a nil error with it. -/
theorem ReadDeviceData_empty_on_malformed_visitor :
    sampleDecoder.visitor openBrace = .error "unexpected end of JSON input" ∧
    (ReadDeviceData sampleDecoder sampleDriver emptyObject openBrace emptyObject).data = "" ∧
    (ReadDeviceData sampleDecoder sampleDriver emptyObject openBrace emptyObject).err = none :=
  ⟨rfl, by decide, by decide⟩

/-- C2, amended: when the three config arguments decode, the string returned by
`ReadDeviceData` is not empty, whatever the driver state and the property name. -/
theorem ReadDeviceData_nonempty_of_decodable (json : Decoder) (d : PadbotDriver)
    (protocolCommon visitor protocol : Bytes)
    (c : PadbotProtocolCommonConfig) (v : PadBotProtocolVisitorConfig)
    (p : PadbotProtocolConfig)
    (h1 : json.common protocolCommon = .ok c) (h2 : json.visitor visitor = .ok v)
    (h3 : json.protocol protocol = .ok p) :
    (ReadDeviceData json d protocolCommon visitor protocol).data ≠ "" := by
  rw [ReadDeviceData_ok json d protocolCommon visitor protocol c v p h1 h2 h3]
  exact orUnknown_ne_empty _

/-- C2, amended, at the driver of `cmd/main.go` and a visitor naming no property. -/
theorem ReadDeviceData_nonempty_of_decodable_witness :
    sampleDecoder.common emptyObject = .ok ⟨⟨""⟩⟩ ∧
    sampleDecoder.visitor emptyObject = .ok ⟨"", ⟨""⟩⟩ ∧
    sampleDecoder.protocol emptyObject = .ok ⟨"", ⟨""⟩⟩ ∧
    (ReadDeviceData sampleDecoder mainDriver emptyObject emptyObject emptyObject).data ≠ "" :=
  ⟨rfl, rfl, rfl,
    ReadDeviceData_nonempty_of_decodable sampleDecoder mainDriver emptyObject emptyObject
      emptyObject ⟨⟨""⟩⟩ ⟨"", ⟨""⟩⟩ ⟨"", ⟨""⟩⟩ rfl rfl rfl⟩

/-- C9: on decodable config arguments and a property name outside batteryPercentage,
batteryStatus, actionStatus, navigationStatus and robotLocation, `ReadDeviceData`
returns the text UNKNOWN with a nil error, issues no HTTP request and leaves the
driver as it was. -/
theorem ReadDeviceData_unknown_property (json : Decoder) (d : PadbotDriver)
    (protocolCommon visitor protocol : Bytes)
    (c : PadbotProtocolCommonConfig) (v : PadBotProtocolVisitorConfig)
    (p : PadbotProtocolConfig)
    (h1 : json.common protocolCommon = .ok c) (h2 : json.visitor visitor = .ok v)
    (h3 : json.protocol protocol = .ok p)
    (hn : v.ConfigData.PropertyName ∉ ["batteryPercentage", "batteryStatus", "actionStatus",
      "navigationStatus", "robotLocation"]) :
    ReadDeviceData json d protocolCommon visitor protocol =
      { data := "UNKNOWN", err := none, effect := ⟨d, []⟩ } := by
  rw [ReadDeviceData_ok json d protocolCommon visitor protocol c v p h1 h2 h3]
  simp only [List.mem_cons, List.mem_singleton, List.not_mem_nil, or_false, not_or] at hn
  obtain ⟨n1, n2, n3, n4, n5⟩ := hn
  simp only [n1, n2, n3, n4, n5, if_false]
  rfl

/-- C9, at the sample driver and the property name speed. -/
theorem ReadDeviceData_unknown_property_witness :
    sampleDecoder.common emptyObject = .ok ⟨⟨""⟩⟩ ∧
    sampleDecoder.visitor (visitorDoc "speed") = .ok ⟨"", ⟨"speed"⟩⟩ ∧
    sampleDecoder.protocol emptyObject = .ok ⟨"", ⟨""⟩⟩ ∧
    "speed" ∉ ["batteryPercentage", "batteryStatus", "actionStatus",
      "navigationStatus", "robotLocation"] ∧
    ReadDeviceData sampleDecoder sampleDriver emptyObject (visitorDoc "speed") emptyObject =
      { data := "UNKNOWN", err := none, effect := ⟨sampleDriver, []⟩ } :=
  ⟨rfl, rfl, rfl, by decide,
    ReadDeviceData_unknown_property sampleDecoder sampleDriver emptyObject
      (visitorDoc "speed") emptyObject ⟨⟨""⟩⟩ ⟨"", ⟨"speed"⟩⟩ ⟨"", ⟨""⟩⟩ rfl rfl rfl (by decide)⟩

/-! ## The pollers -/

/-- C3: with a non-empty base URL, the Status left by one `updateStatus` iteration is
fixed by the outcome of the GET of the status URL alone.  When the request fails,
answers with a code other than 200, has a body that cannot be read, or has a body that
does not decode, the five fields are -1 and four times UNKNOWN; when the answer is 200
and the body decodes, Status is the decoded record.  The Status held before plays no
part. -/
theorem updateStatus_publishes_probe_outcome (json : Decoder) (net : Network)
    (d : PadbotDriver) (h : d.BaseURL ≠ "") :
    (net (d.BaseURL ++ "/status") = none →
      (updateStatus json net d).driver.Status =
        ⟨-1, "UNKNOWN", "UNKNOWN", "UNKNOWN", "UNKNOWN"⟩) ∧
    (∀ r, net (d.BaseURL ++ "/status") = some r → r.StatusCode ≠ 200 →
      (updateStatus json net d).driver.Status =
        ⟨-1, "UNKNOWN", "UNKNOWN", "UNKNOWN", "UNKNOWN"⟩) ∧
    (∀ r, net (d.BaseURL ++ "/status") = some r → r.StatusCode = 200 → r.Body = none →
      (updateStatus json net d).driver.Status =
        ⟨-1, "UNKNOWN", "UNKNOWN", "UNKNOWN", "UNKNOWN"⟩) ∧
    (∀ r b e, net (d.BaseURL ++ "/status") = some r → r.StatusCode = 200 →
      r.Body = some b → json.status b = .error e →
      (updateStatus json net d).driver.Status =
        ⟨-1, "UNKNOWN", "UNKNOWN", "UNKNOWN", "UNKNOWN"⟩) ∧
    (∀ r b st, net (d.BaseURL ++ "/status") = some r → r.StatusCode = 200 →
      r.Body = some b → json.status b = .ok st →
      (updateStatus json net d).driver.Status = st) ∧
    (∀ s₀ : PadbotDriverStatus,
      (updateStatus json net { d with Status := s₀ }).driver.Status =
        (updateStatus json net d).driver.Status) := by
  have hs : ∀ s₀ : PadbotDriverStatus, ({ d with Status := s₀ } : PadbotDriver).BaseURL ≠ "" :=
    fun _ => h
  refine ⟨?_, ?_, ?_, ?_, ?_, ?_⟩
  · intro hn
    rw [updateStatus_of_url json net d h]
    simp only [hn]
    rfl
  · intro r hr hc
    rw [updateStatus_of_url json net d h]
    simp only [hr, hc, ne_eq, not_false_eq_true, if_true]
    rfl
  · intro r hr hc hb
    rw [updateStatus_of_url json net d h]
    simp only [hr, hc, hb, ne_eq, not_true_eq_false, if_false]
    rfl
  · intro r b e hr hc hb he
    rw [updateStatus_of_url json net d h]
    simp only [hr, hc, hb, he, ne_eq, not_true_eq_false, if_false]
    rfl
  · intro r b st hr hc hb he
    rw [updateStatus_of_url json net d h]
    simp only [hr, hc, hb, he, ne_eq, not_true_eq_false, if_false]
  · intro s₀
    rw [updateStatus_of_url json net d h, updateStatus_of_url json net _ (hs s₀)]

/-- C3, at the sample driver: a probe answered 500 wipes the Status of the last
successful poll. -/
theorem updateStatus_publishes_probe_outcome_witness :
    sampleDriver.BaseURL ≠ "" ∧
    (updateStatus sampleDecoder (constNet (some ⟨500, some sampleStatusBody⟩))
        sampleDriver).driver.Status = ⟨-1, "UNKNOWN", "UNKNOWN", "UNKNOWN", "UNKNOWN"⟩ :=
  ⟨by decide,
    (updateStatus_publishes_probe_outcome sampleDecoder
        (constNet (some ⟨500, some sampleStatusBody⟩)) sampleDriver (by decide)).2.1
      ⟨500, some sampleStatusBody⟩ rfl (by decide)⟩

/-- C4: with a non-empty base URL, after one `updateHealth` iteration Healthy is true
exactly when the GET of the health URL succeeded with status code 200, whatever Healthy
was before.  `updateHealth` leaves Status as it was, `updateStatus` leaves Healthy as it
was, and so `GetDeviceStatus` gives the outcome of that health probe after any number of
status polls. -/
theorem updateHealth_sets_Healthy (json : Decoder) (net : Network) (d : PadbotDriver)
    (protocolCommon visitor protocol : Bytes) (h : d.BaseURL ≠ "") :
    ((updateHealth net d).driver.Healthy = true ↔
      ∃ r, net (d.BaseURL ++ "/health") = some r ∧ r.StatusCode = 200) ∧
    (updateHealth net d).driver.Status = d.Status ∧
    (∀ (net₁ : Network) (d₁ : PadbotDriver),
      (updateStatus json net₁ d₁).driver.Healthy = d₁.Healthy) ∧
    (∀ nets : List Network,
      (GetDeviceStatus
          (runPollers json (nets.map Tick.status) (updateHealth net d).driver).driver
          protocolCommon visitor protocol = true ↔
        ∃ r, net (d.BaseURL ++ "/health") = some r ∧ r.StatusCode = 200)) := by
  have key : ((updateHealth net d).driver.Healthy = true ↔
      ∃ r, net (d.BaseURL ++ "/health") = some r ∧ r.StatusCode = 200) := by
    simp only [updateHealth, if_neg (len_ne_zero_of_ne_empty h)]
    cases hn : net (d.BaseURL ++ "/health") with
    | none => simp
    | some r =>
      by_cases hc : r.StatusCode = 200
      · simp [hc]
      · simp [hc]
  refine ⟨key, updateHealth_Status net d, fun net₁ d₁ => updateStatus_Healthy json net₁ d₁, ?_⟩
  intro nets
  simp only [GetDeviceStatus]
  rw [runPollers_status_Healthy]
  exact key

/-- C4, at the sample driver: a health probe answered 200, then two failed status
polls. -/
theorem updateHealth_sets_Healthy_witness :
    sampleDriver.BaseURL ≠ "" ∧
    GetDeviceStatus
      (runPollers sampleDecoder ([constNet none, constNet none].map Tick.status)
        (updateHealth (constNet (some ⟨200, none⟩)) sampleDriver).driver).driver
      emptyObject emptyObject emptyObject = true :=
  ⟨by decide,
    ((updateHealth_sets_Healthy sampleDecoder (constNet (some ⟨200, none⟩)) sampleDriver
        emptyObject emptyObject emptyObject (by decide)).2.2.2
      [constNet none, constNet none]).mpr ⟨⟨200, none⟩, rfl, rfl⟩⟩

/-- C8, at the code: the driver of `cmd/main.go`, initialised with a config that gives
no base URL, issues no HTTP request in any sequence of poller iterations, and reads
UNKNOWN for the four string properties; but the read of batteryPercentage gives 0,
not -1. -/
theorem unpolled_driver_reads_zero_battery (ticks : List Tick) :
    InitDevice sampleDecoder mainDriver emptyObject =
      ({ mainDriver with stopUpdateHealthChan := true, stopUpdateStatusChan := true }, none) ∧
    (runPollers sampleDecoder ticks
        (InitDevice sampleDecoder mainDriver emptyObject).1).requests = [] ∧
    (ReadDeviceData sampleDecoder
        (runPollers sampleDecoder ticks (InitDevice sampleDecoder mainDriver emptyObject).1).driver
        emptyObject (visitorDoc "batteryPercentage") emptyObject).data = "0" ∧
    (∀ n ∈ ["batteryStatus", "actionStatus", "navigationStatus", "robotLocation"],
      (ReadDeviceData sampleDecoder
        (runPollers sampleDecoder ticks (InitDevice sampleDecoder mainDriver emptyObject).1).driver
        emptyObject (visitorDoc n) emptyObject).data = "UNKNOWN") := by
  have hi : InitDevice sampleDecoder mainDriver emptyObject =
      ({ mainDriver with stopUpdateHealthChan := true, stopUpdateStatusChan := true }, none) :=
    rfl
  rw [hi, runPollers_of_empty_url sampleDecoder ticks _ rfl]
  refine ⟨rfl, rfl, by decide, by decide⟩

/-! ## WriteDeviceData -/

/-- C5: on decodable config arguments and a string value, `WriteDeviceData` returns nil
and leaves the driver as it was.  When the property is robotLocation and the value is
neither empty nor UNKNOWN it issues one request, a POST to the navigation URL; in every
other case it issues none. -/
theorem WriteDeviceData_dispatch (json : Decoder) (d : PadbotDriver) (value : String)
    (protocolCommon visitor protocol : Bytes)
    (c : PadbotProtocolCommonConfig) (v : PadBotProtocolVisitorConfig)
    (p : PadbotProtocolConfig)
    (h1 : json.common protocolCommon = .ok c) (h2 : json.visitor visitor = .ok v)
    (h3 : json.protocol protocol = .ok p) :
    ∃ r : WriteResult,
      WriteDeviceData json d (.string value) protocolCommon visitor protocol = .returned r ∧
      r.err = none ∧ r.effect.driver = d ∧
      ((v.ConfigData.PropertyName = "robotLocation" ∧ value ≠ "" ∧ value ≠ "UNKNOWN") →
        ∃ body, r.effect.requests =
          [Request.post (d.BaseURL ++ "/navigation") "application/json" body]) ∧
      (¬ (v.ConfigData.PropertyName = "robotLocation" ∧ value ≠ "" ∧ value ≠ "UNKNOWN") →
        r.effect.requests = []) := by
  refine ⟨_, WriteDeviceData_ok json d value protocolCommon visitor protocol c v p h1 h2 h3,
    rfl, rfl, ?_, ?_⟩
  · intro hc
    exact ⟨postData value, by simp only [if_pos hc]⟩
  · intro hc
    simp only [if_neg hc]

/-- C5, at the sample driver: writing UNKNOWN to robotLocation issues nothing. -/
theorem WriteDeviceData_dispatch_witness :
    sampleDecoder.common emptyObject = .ok ⟨⟨""⟩⟩ ∧
    sampleDecoder.visitor (visitorDoc "robotLocation") = .ok ⟨"", ⟨"robotLocation"⟩⟩ ∧
    sampleDecoder.protocol emptyObject = .ok ⟨"", ⟨""⟩⟩ ∧
    ∃ r : WriteResult,
      WriteDeviceData sampleDecoder sampleDriver (.string "UNKNOWN") emptyObject
        (visitorDoc "robotLocation") emptyObject = .returned r ∧
      r.err = none ∧ r.effect.requests = [] := by
  refine ⟨rfl, rfl, rfl, ?_⟩
  obtain ⟨r, hr, he, _, _, hno⟩ :=
    WriteDeviceData_dispatch sampleDecoder sampleDriver "UNKNOWN" emptyObject
      (visitorDoc "robotLocation") emptyObject ⟨⟨""⟩⟩ ⟨"", ⟨"robotLocation"⟩⟩ ⟨"", ⟨""⟩⟩ rfl rfl rfl
  exact ⟨r, hr, he, hno (by decide)⟩

/-- C6, at the code: for the target made of the letter a, a double quote and the letter
b, the request is a POST to the navigation URL whose body has the double quote pasted in
unescaped, so the text between the braces is not a JSON member. -/
theorem WriteDeviceData_body_unescaped :
    WriteDeviceData sampleDecoder sampleDriver (.string "a\"b") emptyObject
        (visitorDoc "robotLocation") emptyObject =
      .returned
        { err := none
          effect :=
            ⟨sampleDriver,
              [Request.post "http://padbot/navigation" "application/json"
                "\x7b\"targetPoint\": \"a\"b\"\x7d"]⟩ } := by
  decide

/-- C7, at the code: when the common config argument is not JSON, `WriteDeviceData`
issues no request and returns a nil error. -/
theorem WriteDeviceData_nil_on_malformed_common :
    sampleDecoder.common openBrace = .error "unexpected end of JSON input" ∧
    WriteDeviceData sampleDecoder sampleDriver (.string "Room42") openBrace
        (visitorDoc "robotLocation") emptyObject =
      .returned { err := none, effect := ⟨sampleDriver, []⟩ } :=
  ⟨rfl, by decide⟩

end Padbot
